import Mathlib

/-!
Verification of the WorldEROI grid model (`world_grid.py`).

The source builds a per-cell table of wind/solar potential and EROI.
We embed each derived column as a pure function of the cell fields it
reads, over exact rationals (and over reals where the source uses
transcendental functions: `pow` with fractional exponents and `gamma`).
Named constants from the configuration module `model_params` are kept as
explicit parameters, since that module only supplies scalar values.
-/

namespace WorldEROI

/-! ## Country-exclusion filter (world_grid, lines 34-39) -/

/-- Boolean test that the character list `n` occurs contiguously inside `h`,
mirroring the Python `needle in str` substring test. -/
def charsSeg (n : List Char) : List Char → Bool
  | [] => n.isEmpty
  | c :: rest => List.isPrefixOf n (c :: rest) || charsSeg n rest

/-- Substring test on strings, mirroring `'Island' in str(x)`. -/
def strSeg (n h : String) : Bool := charsSeg n.toList h.toList

/-- The cell-retention predicate of `world_grid`: the conjunction of the
sequential `df.loc` filters on lines 34-39. `country` and `v_r_opti` are
`Option`s because the raw table holds nulls; `minElev` embeds
`model_params.maxWaterDepth_wind`. -/
def keepCell (minElev : ℚ) (country : Option String) (elev : ℚ)
    (v_r_opti : Option ℚ) : Bool :=
  match country with
  | none => false
  | some cn =>
    !(cn == "Antarctica") && !(cn == "Greenland") &&
    !(cn == "French Southern & Antarctic Lands") &&
    !(strSeg "Island" cn) && !(strSeg "Is." cn) &&
    decide (minElev ≤ elev) && v_r_opti.isSome

/-! ## Offshore suitability derating (world_grid, lines 53-59) -/

/-- Offshore wind suitability after the depth zeroing (line 53) and the three
sequential distance-to-coast deratings (lines 57-59), applied in source
order: zero below the minimum elevation, then multiply by 0.67 when
`DistCoast >= 37.04`, by 0.33 when `9.26 <= DistCoast < 37.04`, and by 0.1
when `DistCoast < 9.26`. -/
def wind_sf_offshore_final (minElev elev dist sf : ℚ) : ℚ :=
  let s0 : ℚ := if elev < minElev then 0 else sf
  let s1 : ℚ := if 37.04 ≤ dist then s0 * 0.67 else s0
  let s2 : ℚ := if 9.26 ≤ dist ∧ dist < 37.04 then s1 * 0.33 else s1
  if dist < 9.26 then s2 * 0.1 else s2

/-- The single distance-band multiplier the claim describes. -/
def coastBandFactor (dist : ℚ) : ℚ :=
  if 37.04 ≤ dist then 0.67 else if 9.26 ≤ dist then 0.33 else 0.1

/-! ## Suitable areas (world_grid, lines 64-72) -/

def wind_area_onshore (area sf : ℚ) : ℚ := area * sf

def wind_area_offshore (area minElev elev dist sf : ℚ) : ℚ :=
  area * wind_sf_offshore_final minElev elev dist sf

/-- PV suitable area; line 64 multiplies the land-cover factor by the slope
factor, line 71 multiplies by area. -/
def pv_area (area pv_sf slope_pv_sf : ℚ) : ℚ := area * (pv_sf * slope_pv_sf)

def csp_area (area csp_sf slope_csp_sf : ℚ) : ℚ := area * (csp_sf * slope_csp_sf)

/-! ## Offshore embodied-energy inputs (world_grid_eroi, lines 110-125) -/

/-- The sum of indicator-weighted depth-band terms of lines 116-120,
written exactly as the source: each boolean factor becomes a 0/1
indicator. -/
def scaling_factor_fixed_foundations (elev : ℚ) : ℚ :=
  2.19 * (if -40 < elev ∧ elev ≤ -35 then 1 else 0) +
  1.95 * (if -35 < elev ∧ elev ≤ -30 then 1 else 0) +
  1.57 * (if -30 < elev ∧ elev ≤ -25 then 1 else 0) +
  1.34 * (if -25 < elev ∧ elev ≤ -20 then 1 else 0) +
  1.08 * (if -20 < elev ∧ elev ≤ -15 then 1 else 0) +
  1 * (if -15 < elev then 1 else 0)

/-- The base term of `inputs_gw_offshore` on line 122:
`(Elev <= -40) * fixedOffshoreFixed + (Elev > -40) * fixedOffshoreFloating`. -/
def inputs_gw_offshore_base (fixedOffshoreFixed fixedOffshoreFloating elev : ℚ) : ℚ :=
  (if elev ≤ -40 then 1 else 0) * fixedOffshoreFixed +
  (if -40 < elev then 1 else 0) * fixedOffshoreFloating

/-- Full `inputs_gw_offshore` (lines 122-125): base term, plus the depth
scaling times the fixed-foundation constant, plus the distance-to-coast
terms. -/
def inputs_gw_offshore (fixedOffshoreFixed fixedOffshoreFloating
    offshoreFixedFoundations offshoreOMKm offshoreInstallationKm
    offshoreCableKm elev dist : ℚ) : ℚ :=
  inputs_gw_offshore_base fixedOffshoreFixed fixedOffshoreFloating elev +
  scaling_factor_fixed_foundations elev * offshoreFixedFoundations +
  |dist| * (offshoreOMKm + offshoreInstallationKm + offshoreCableKm)

/-! ## EROI ratio columns (world_grid_eroi, lines 144-147) -/

def wind_onshore_eroi (e e_in : ℚ) : ℚ := e / e_in

def wind_offshore_eroi (e e_in : ℚ) : ℚ := e / e_in

/-- Combined wind EROI of line 147: `wind_e / wind_e_in` with
`wind_e = onshore_e + offshore_e` (line 133) and
`wind_e_in = onshore_e_in + offshore_e_in` (line 142). -/
def wind_eroi (on_e off_e on_e_in off_e_in : ℚ) : ℚ :=
  (on_e + off_e) / (on_e_in + off_e_in)

/-! ## Rooftop PV pipeline (world_rooftop_pv, lines 160-187) -/

/-- Modelled from the spec: `model_methods.E_out_solar` is not among the
sources; section 4.4 of the specification describes it as a direct
product-style model, annual output proportional to irradiance times
effective collector area, so it is embedded as a fixed proportionality
coefficient times that product. -/
def E_out_solar (solarCoeff ghi effArea : ℚ) : ℚ := solarCoeff * ghi * effArea

/-- The configuration constants the rooftop pipeline reads from
`model_params`, plus the spec-modelled solar output coefficient. -/
structure RoofParams where
  solarCoeff : ℚ
  wc_pv_panel : ℚ
  pv_life_time_inputs : ℚ
  pv_life_time : ℚ
  sf_residential : ℚ
  sf_commercial : ℚ
  oe_pv : ℚ
  remove_operational_e : Bool

/-- Residential rooftop output of line 174, with the optional operational
energy deduction of lines 176-177. -/
def residential_e (p : RoofParams) (ghi aRes : ℚ) : ℚ :=
  E_out_solar p.solarCoeff ghi (aRes * 1000000 * p.sf_residential) * 1e-18 *
    (if p.remove_operational_e then 1 - p.oe_pv else 1)

def commercial_e (p : RoofParams) (ghi aCom : ℚ) : ℚ :=
  E_out_solar p.solarCoeff ghi (aCom * 1000000 * p.sf_commercial) * 1e-18 *
    (if p.remove_operational_e then 1 - p.oe_pv else 1)

/-- Residential rooftop input of lines 180-181. -/
def residential_e_in (p : RoofParams) (aRes : ℚ) : ℚ :=
  (p.pv_life_time_inputs / p.pv_life_time) *
    (p.wc_pv_panel * aRes * 1000000 * p.sf_residential / 1000000000) * 1e-18

def commercial_e_in (p : RoofParams) (aCom : ℚ) : ℚ :=
  (p.pv_life_time_inputs / p.pv_life_time) *
    (p.wc_pv_panel * aCom * 1000000 * p.sf_commercial / 1000000000) * 1e-18

def rooftop_pv_e (p : RoofParams) (ghi aRes aCom : ℚ) : ℚ :=
  residential_e p ghi aRes + commercial_e p ghi aCom

def rooftop_pv_e_in (p : RoofParams) (aRes aCom : ℚ) : ℚ :=
  residential_e_in p aRes + commercial_e_in p aCom

/-- Line 187: the combined rooftop EROI, with the floor-of-1 clamp left
commented out in the source and hence absent here. -/
def rooftop_pv_eroi (p : RoofParams) (ghi aRes aCom : ℚ) : ℚ :=
  rooftop_pv_e p ghi aRes aCom / rooftop_pv_e_in p aRes aCom

/-- The per-unit-effective-area output-to-input quotient the combined
rooftop EROI reduces to; it depends only on the irradiance and the PV
constants. -/
def rooftop_pv_unit_eroi (p : RoofParams) (ghi : ℚ) : ℚ :=
  E_out_solar p.solarCoeff ghi 1 *
    (if p.remove_operational_e then 1 - p.oe_pv else 1) * 1000000000 *
    p.pv_life_time / (p.pv_life_time_inputs * p.wc_pv_panel)

/-! ## Rooftop GHI overrides (world_rooftop_pv, lines 165-172) -/

/-- Point update of the per-country GHI column, as performed by one
`df.loc` assignment. -/
def ghiUpdate (f : String → Option ℚ) (key : String) (v : Option ℚ) :
    String → Option ℚ :=
  fun s => if s = key then v else f s

/-- The GHI column after the seven override assignments of lines 167-172,
applied in source order to the column produced by the per-country join
(`joined`; `none` models a missing or NaN join result). -/
def ghi_after_overrides (joined : String → Option ℚ) : String → Option ℚ :=
  let g1 := ghiUpdate joined "Singapore" (joined "Malaysia")
  let g2 := ghiUpdate g1 "Bahrain" (g1 "Qatar")
  let g3 := ghiUpdate g2 "Chinese Taipei" (g2 "China")
  let g4 := ghiUpdate g3 "Hong Kong, China" (g3 "China")
  let g5 := ghiUpdate g4 "Kosovo" (g4 "Montenegro")
  ghiUpdate (ghiUpdate g5 "Netherlands Antilles" (some 0)) "Gibraltar" (some 0)

/-! ## Wind-field parameters and air density (world_grid, lines 77-89)

These columns use fractional powers and the Gamma function, so they are
embedded over the reals. -/

/-- Arithmetic mean of the 71 m and 125 m mean wind speeds (line 77). -/
noncomputable def WindMean100 (m71 m125 : ℝ) : ℝ := (m71 + m125) / 2

/-- Arithmetic mean of the 71 m and 125 m wind-speed standard deviations
(line 78). -/
noncomputable def WindStd100 (s71 s125 : ℝ) : ℝ := (s71 + s125) / 2

/-- Weibull shape parameter of line 81, as a function of the 100 m mean and
standard deviation. -/
noncomputable def weibull_k (mean std : ℝ) : ℝ := (std / mean) ^ (-1.086 : ℝ)

/-- Weibull scale parameter of line 82. -/
noncomputable def weibull_c (mean std : ℝ) : ℝ :=
  mean / Real.Gamma (1 + 1 / weibull_k mean std)

/-- Hub height of line 85, written exactly as the source:
`Elev * (Elev > 0) + 100` with the boolean as a 0/1 indicator. -/
noncomputable def hub_z (elev : ℝ) : ℝ :=
  elev * (if 0 < elev then 1 else 0) + 100

/-- Atmospheric pressure at hub height (line 87). -/
noncomputable def pressure (z : ℝ) : ℝ :=
  101325 * (1 - 0.0065 * z / 288.15) ^ (5.255 : ℝ)

/-- Air density at hub height (line 89). -/
noncomputable def air_density (z : ℝ) : ℝ := pressure z / (287.05 * 288.15)

/-! ## Theorems -/

/-- C1. The claim states that cells with `Elev > -40` (fixed-foundation
regime) receive the constant `fixedOffshoreFixed` as the base of
`inputs_gw_offshore` and cells with `Elev <= -40` receive
`fixedOffshoreFloating`. The code on line 122 does the opposite, for every
pair of constant values: at `Elev = -41` it selects the first constant
(`fixedOffshoreFixed`) and at `Elev = -10` the second
(`fixedOffshoreFloating`), contradicting both the claim and the comment on
lines 113-114 of the source, which assigns fixed foundations to water
depth below 40 m. -/
theorem offshore_base_constant_swapped :
    ∀ fixedOffshoreFixed fixedOffshoreFloating : ℚ,
      inputs_gw_offshore_base fixedOffshoreFixed fixedOffshoreFloating (-41) =
        fixedOffshoreFixed ∧
      inputs_gw_offshore_base fixedOffshoreFixed fixedOffshoreFloating (-10) =
        fixedOffshoreFloating := by
  intro fx fl
  constructor <;> norm_num [inputs_gw_offshore_base]

/-- C2. The sum of indicator-weighted terms on lines 116-120 behaves as a
single selected band: on each of the six mutually exclusive depth bands it
equals that band's factor, and in particular it evaluates to 1.08 at
`Elev = -18`, to 1 at `Elev = -10` and to 2.19 at `Elev = -36`. -/
theorem scaling_factor_fixed_foundations_bands :
    (∀ e : ℚ, -15 < e → scaling_factor_fixed_foundations e = 1) ∧
    (∀ e : ℚ, -20 < e → e ≤ -15 → scaling_factor_fixed_foundations e = 1.08) ∧
    (∀ e : ℚ, -25 < e → e ≤ -20 → scaling_factor_fixed_foundations e = 1.34) ∧
    (∀ e : ℚ, -30 < e → e ≤ -25 → scaling_factor_fixed_foundations e = 1.57) ∧
    (∀ e : ℚ, -35 < e → e ≤ -30 → scaling_factor_fixed_foundations e = 1.95) ∧
    (∀ e : ℚ, -40 < e → e ≤ -35 → scaling_factor_fixed_foundations e = 2.19) ∧
    scaling_factor_fixed_foundations (-18) = 1.08 ∧
    scaling_factor_fixed_foundations (-10) = 1 ∧
    scaling_factor_fixed_foundations (-36) = 2.19 := by
  refine ⟨?_, ?_, ?_, ?_, ?_, ?_, ?_, ?_, ?_⟩
  · intro e h1
    have c1 : ¬(-40 < e ∧ e ≤ -35) := fun hc => absurd hc.2 (by linarith)
    have c2 : ¬(-35 < e ∧ e ≤ -30) := fun hc => absurd hc.2 (by linarith)
    have c3 : ¬(-30 < e ∧ e ≤ -25) := fun hc => absurd hc.2 (by linarith)
    have c4 : ¬(-25 < e ∧ e ≤ -20) := fun hc => absurd hc.2 (by linarith)
    have c5 : ¬(-20 < e ∧ e ≤ -15) := fun hc => absurd hc.2 (by linarith)
    simp only [scaling_factor_fixed_foundations, if_neg c1, if_neg c2, if_neg c3,
      if_neg c4, if_neg c5, if_pos h1]
    norm_num
  · intro e h1 h2
    have c1 : ¬(-40 < e ∧ e ≤ -35) := fun hc => absurd hc.2 (by linarith)
    have c2 : ¬(-35 < e ∧ e ≤ -30) := fun hc => absurd hc.2 (by linarith)
    have c3 : ¬(-30 < e ∧ e ≤ -25) := fun hc => absurd hc.2 (by linarith)
    have c4 : ¬(-25 < e ∧ e ≤ -20) := fun hc => absurd hc.2 (by linarith)
    have c5 : -20 < e ∧ e ≤ -15 := ⟨h1, h2⟩
    have c6 : ¬(-15 < e) := not_lt.mpr h2
    simp only [scaling_factor_fixed_foundations, if_neg c1, if_neg c2, if_neg c3,
      if_neg c4, if_pos c5, if_neg c6]
    norm_num
  · intro e h1 h2
    have c1 : ¬(-40 < e ∧ e ≤ -35) := fun hc => absurd hc.2 (by linarith)
    have c2 : ¬(-35 < e ∧ e ≤ -30) := fun hc => absurd hc.2 (by linarith)
    have c3 : ¬(-30 < e ∧ e ≤ -25) := fun hc => absurd hc.2 (by linarith)
    have c4 : -25 < e ∧ e ≤ -20 := ⟨h1, h2⟩
    have c5 : ¬(-20 < e ∧ e ≤ -15) := fun hc => absurd hc.1 (by linarith)
    have c6 : ¬(-15 < e) := by linarith
    simp only [scaling_factor_fixed_foundations, if_neg c1, if_neg c2, if_neg c3,
      if_pos c4, if_neg c5, if_neg c6]
    norm_num
  · intro e h1 h2
    have c1 : ¬(-40 < e ∧ e ≤ -35) := fun hc => absurd hc.2 (by linarith)
    have c2 : ¬(-35 < e ∧ e ≤ -30) := fun hc => absurd hc.2 (by linarith)
    have c3 : -30 < e ∧ e ≤ -25 := ⟨h1, h2⟩
    have c4 : ¬(-25 < e ∧ e ≤ -20) := fun hc => absurd hc.1 (by linarith)
    have c5 : ¬(-20 < e ∧ e ≤ -15) := fun hc => absurd hc.1 (by linarith)
    have c6 : ¬(-15 < e) := by linarith
    simp only [scaling_factor_fixed_foundations, if_neg c1, if_neg c2, if_pos c3,
      if_neg c4, if_neg c5, if_neg c6]
    norm_num
  · intro e h1 h2
    have c1 : ¬(-40 < e ∧ e ≤ -35) := fun hc => absurd hc.2 (by linarith)
    have c2 : -35 < e ∧ e ≤ -30 := ⟨h1, h2⟩
    have c3 : ¬(-30 < e ∧ e ≤ -25) := fun hc => absurd hc.1 (by linarith)
    have c4 : ¬(-25 < e ∧ e ≤ -20) := fun hc => absurd hc.1 (by linarith)
    have c5 : ¬(-20 < e ∧ e ≤ -15) := fun hc => absurd hc.1 (by linarith)
    have c6 : ¬(-15 < e) := by linarith
    simp only [scaling_factor_fixed_foundations, if_neg c1, if_pos c2, if_neg c3,
      if_neg c4, if_neg c5, if_neg c6]
    norm_num
  · intro e h1 h2
    have c1 : -40 < e ∧ e ≤ -35 := ⟨h1, h2⟩
    have c2 : ¬(-35 < e ∧ e ≤ -30) := fun hc => absurd hc.1 (by linarith)
    have c3 : ¬(-30 < e ∧ e ≤ -25) := fun hc => absurd hc.1 (by linarith)
    have c4 : ¬(-25 < e ∧ e ≤ -20) := fun hc => absurd hc.1 (by linarith)
    have c5 : ¬(-20 < e ∧ e ≤ -15) := fun hc => absurd hc.1 (by linarith)
    have c6 : ¬(-15 < e) := by linarith
    simp only [scaling_factor_fixed_foundations, if_pos c1, if_neg c2, if_neg c3,
      if_neg c4, if_neg c5, if_neg c6]
    norm_num
  · norm_num [scaling_factor_fixed_foundations]
  · norm_num [scaling_factor_fixed_foundations]
  · norm_num [scaling_factor_fixed_foundations]

/-- Witness for C2: the first band applied at a concrete depth. -/
theorem scaling_factor_fixed_foundations_bands_witness :
    (-20 : ℚ) < -16 ∧ (-16 : ℚ) ≤ -15 ∧
      scaling_factor_fixed_foundations (-16) = 1.08 :=
  ⟨by norm_num, by norm_num,
    scaling_factor_fixed_foundations_bands.2.1 (-16) (by norm_num) (by norm_num)⟩

/-- The sequential deratings of lines 53-59 collapse to the depth zeroing
followed by exactly one distance-band multiplier. -/
theorem wind_sf_offshore_final_eq_band :
    ∀ minElev elev dist sf : ℚ,
      wind_sf_offshore_final minElev elev dist sf =
        (if elev < minElev then 0 else sf) * coastBandFactor dist := by
  intro minElev elev dist sf
  rcases le_or_lt 37.04 dist with hb | hb
  · have hc : ¬(9.26 ≤ dist ∧ dist < 37.04) := fun h => absurd hb (not_le.mpr h.2)
    have hd : ¬(dist < 9.26) := not_lt.mpr (by linarith)
    have he : (9.26 : ℚ) ≤ dist := by linarith
    simp only [wind_sf_offshore_final, coastBandFactor, if_pos hb, if_neg hc, if_neg hd]
  · rcases le_or_lt 9.26 dist with he | he
    · have hbn : ¬(37.04 ≤ dist) := not_le.mpr hb
      have hc : 9.26 ≤ dist ∧ dist < 37.04 := ⟨he, hb⟩
      have hd : ¬(dist < 9.26) := not_lt.mpr he
      simp only [wind_sf_offshore_final, coastBandFactor, if_neg hbn, if_pos hc,
        if_neg hd, if_pos he]
    · have hbn : ¬(37.04 ≤ dist) := not_le.mpr hb
      have hc : ¬(9.26 ≤ dist ∧ dist < 37.04) := fun h => absurd h.1 (not_le.mpr he)
      have hen : ¬(9.26 ≤ dist) := not_le.mpr he
      simp only [wind_sf_offshore_final, coastBandFactor, if_neg hbn, if_neg hc,
        if_pos he, if_neg hen]

/-- C3. Offshore wind suitability is zeroed below the minimum water depth
and then multiplied by exactly one distance-to-coast band factor (0.67 for
`DistCoast >= 37.04`, 0.33 for `9.26 <= DistCoast < 37.04`, 0.1 for
`DistCoast < 9.26`); holding the pre-derating suitability fixed and
non-negative, the result is non-increasing as distance to coast
decreases. -/
theorem offshore_suitability_derating :
    (∀ minElev elev dist sf : ℚ,
      wind_sf_offshore_final minElev elev dist sf =
        (if elev < minElev then 0 else sf) *
          (if 37.04 ≤ dist then 0.67 else if 9.26 ≤ dist then 0.33 else 0.1)) ∧
    (∀ minElev elev sf d1 d2 : ℚ, 0 ≤ sf → d1 ≤ d2 →
      wind_sf_offshore_final minElev elev d1 sf ≤
        wind_sf_offshore_final minElev elev d2 sf) := by
  constructor
  · intro minElev elev dist sf
    exact wind_sf_offshore_final_eq_band minElev elev dist sf
  · intro minElev elev sf d1 d2 hsf h12
    rw [wind_sf_offshore_final_eq_band, wind_sf_offshore_final_eq_band]
    have hpre : 0 ≤ (if elev < minElev then 0 else sf) := by
      split <;> simp [hsf]
    have hfac : coastBandFactor d1 ≤ coastBandFactor d2 := by
      unfold coastBandFactor
      split_ifs <;> linarith
    exact mul_le_mul_of_nonneg_left hfac hpre

/-- Witness for C3: a concrete cell whose derated suitability does not
increase when the distance to coast shrinks from 50 km to 5 km. -/
theorem offshore_suitability_derating_witness :
    (0 : ℚ) ≤ 1/2 ∧ (5 : ℚ) ≤ 50 ∧
      wind_sf_offshore_final (-1000) (-20) 5 (1/2) ≤
        wind_sf_offshore_final (-1000) (-20) 50 (1/2) :=
  ⟨by norm_num, by norm_num,
    offshore_suitability_derating.2 (-1000) (-20) (1/2) 5 50 (by norm_num) (by norm_num)⟩

/-- The derated offshore suitability stays within the unit interval when the
resolver output does. -/
theorem wind_sf_offshore_final_mem_unit :
    ∀ minElev elev dist sf : ℚ, 0 ≤ sf → sf ≤ 1 →
      0 ≤ wind_sf_offshore_final minElev elev dist sf ∧
        wind_sf_offshore_final minElev elev dist sf ≤ 1 := by
  intro minElev elev dist sf h0 h1
  rw [wind_sf_offshore_final_eq_band]
  have hf0 : 0 ≤ coastBandFactor dist := by
    unfold coastBandFactor; split_ifs <;> norm_num
  have hf1 : coastBandFactor dist ≤ 1 := by
    unfold coastBandFactor; split_ifs <;> norm_num
  constructor
  · apply mul_nonneg _ hf0
    split <;> simp [h0]
  · calc (if elev < minElev then 0 else sf) * coastBandFactor dist
        ≤ 1 * 1 := by
          apply mul_le_mul _ hf1 hf0 (by norm_num)
          split <;> simp [h1]
    _ = 1 := by norm_num

/-- C6. Each suitable-area column equals the cell area times the
corresponding suitability fraction (lines 69-72), and when the area is
non-negative and all suitability fractions and derating multipliers lie in
the unit interval, every suitable area lies between 0 and the cell
area. -/
theorem suitable_area_bounds :
    ∀ area minElev elev dist w_on w_off psf spsf csf scsf : ℚ,
      0 ≤ area →
      0 ≤ w_on → w_on ≤ 1 → 0 ≤ w_off → w_off ≤ 1 →
      0 ≤ psf → psf ≤ 1 → 0 ≤ spsf → spsf ≤ 1 →
      0 ≤ csf → csf ≤ 1 → 0 ≤ scsf → scsf ≤ 1 →
      (wind_area_onshore area w_on = area * w_on ∧
        wind_area_offshore area minElev elev dist w_off =
          area * wind_sf_offshore_final minElev elev dist w_off ∧
        pv_area area psf spsf = area * (psf * spsf) ∧
        csp_area area csf scsf = area * (csf * scsf)) ∧
      (0 ≤ wind_area_onshore area w_on ∧ wind_area_onshore area w_on ≤ area) ∧
      (0 ≤ wind_area_offshore area minElev elev dist w_off ∧
        wind_area_offshore area minElev elev dist w_off ≤ area) ∧
      (0 ≤ pv_area area psf spsf ∧ pv_area area psf spsf ≤ area) ∧
      (0 ≤ csp_area area csf scsf ∧ csp_area area csf scsf ≤ area) := by
  intro area minElev elev dist w_on w_off psf spsf csf scsf
  intro harea hw0 hw1 hf0 hf1 hp0 hp1 hs0 hs1 hc0 hc1 hq0 hq1
  obtain ⟨hof0, hof1⟩ := wind_sf_offshore_final_mem_unit minElev elev dist w_off hf0 hf1
  refine ⟨⟨rfl, rfl, rfl, rfl⟩, ⟨?_, ?_⟩, ⟨?_, ?_⟩, ⟨?_, ?_⟩, ⟨?_, ?_⟩⟩
  · exact mul_nonneg harea hw0
  · exact mul_le_of_le_one_right harea hw1
  · exact mul_nonneg harea hof0
  · exact mul_le_of_le_one_right harea hof1
  · exact mul_nonneg harea (mul_nonneg hp0 hs0)
  · exact mul_le_of_le_one_right harea (mul_le_one₀ hp1 hs0 hs1)
  · exact mul_nonneg harea (mul_nonneg hc0 hq0)
  · exact mul_le_of_le_one_right harea (mul_le_one₀ hc1 hq0 hq1)

/-- Witness for C6 at one concrete cell. -/
theorem suitable_area_bounds_witness :
    (0 : ℚ) ≤ 2 ∧
      0 ≤ wind_area_onshore 2 (1/2) ∧ wind_area_onshore 2 (1/2) ≤ 2 ∧
      0 ≤ wind_area_offshore 2 (-1000) (-5) 10 (1/2) ∧
        wind_area_offshore 2 (-1000) (-5) 10 (1/2) ≤ 2 ∧
      0 ≤ pv_area 2 (1/2) (1/3) ∧ pv_area 2 (1/2) (1/3) ≤ 2 ∧
      0 ≤ csp_area 2 (1/4) (1/5) ∧ csp_area 2 (1/4) (1/5) ≤ 2 := by
  have h := suitable_area_bounds 2 (-1000) (-5) 10 (1/2) (1/2) (1/2) (1/3) (1/4) (1/5)
    (by norm_num) (by norm_num) (by norm_num) (by norm_num) (by norm_num)
    (by norm_num) (by norm_num) (by norm_num) (by norm_num) (by norm_num)
    (by norm_num) (by norm_num) (by norm_num)
  exact ⟨by norm_num, h.2.1.1, h.2.1.2, h.2.2.1.1, h.2.2.1.2,
    h.2.2.2.1.1, h.2.2.2.1.2, h.2.2.2.2.1, h.2.2.2.2.2⟩

/-- C7. The exclusion filter of lines 34-39: a cell with a non-null country
is retained exactly when the country is none of the three excluded names,
contains neither the substring Island nor the substring Is., the elevation
is at or above the configured minimum and the rated wind speed is present;
a cell with a null country is never retained. Concretely, Iceland is
retained while Baker Island and a null country are excluded. -/
theorem exclusion_filter_spec :
    (∀ (minElev elev : ℚ) (vr : Option ℚ) (cn : String),
      keepCell minElev (some cn) elev vr = true ↔
        (cn ≠ "Antarctica" ∧ cn ≠ "Greenland" ∧
         cn ≠ "French Southern & Antarctic Lands" ∧
         strSeg "Island" cn = false ∧ strSeg "Is." cn = false ∧
         minElev ≤ elev ∧ vr.isSome = true)) ∧
    (∀ (minElev elev : ℚ) (vr : Option ℚ),
      keepCell minElev none elev vr = false) ∧
    keepCell (-1000) (some "Iceland") 0 (some 10) = true ∧
    keepCell (-1000) (some "Baker Island") 0 (some 10) = false := by
  refine ⟨?_, ?_, ?_, ?_⟩
  · intro minElev elev vr cn
    simp [keepCell, Bool.and_eq_true, Bool.not_eq_true', beq_iff_eq,
      decide_eq_true_eq, and_assoc]
  · intro minElev elev vr
    rfl
  · decide
  · decide

/-- C8. Every EROI column is the plain quotient of its output column by its
input column, with no floor: the combined wind EROI is the quotient of
summed outputs by summed inputs, a concrete rooftop cell has EROI below 1
(no floor-of-1 clamp), and a concrete cell with unequal onshore and
offshore contributions has a combined wind EROI different from the
arithmetic mean of the two EROIs. -/
theorem eroi_ratio_spec :
    (∀ e e_in : ℚ, wind_onshore_eroi e e_in = e / e_in) ∧
    (∀ e e_in : ℚ, wind_offshore_eroi e e_in = e / e_in) ∧
    (∀ on_e off_e on_e_in off_e_in : ℚ,
      wind_eroi on_e off_e on_e_in off_e_in =
        (on_e + off_e) / (on_e_in + off_e_in)) ∧
    (∀ (p : RoofParams) (ghi aRes aCom : ℚ),
      rooftop_pv_eroi p ghi aRes aCom =
        rooftop_pv_e p ghi aRes aCom / rooftop_pv_e_in p aRes aCom) ∧
    rooftop_pv_eroi ⟨1, 1, 1, 1, 1, 1, 0, false⟩ 0 1 1 < 1 ∧
    wind_eroi 10 1 1 10 ≠ (wind_onshore_eroi 10 1 + wind_offshore_eroi 1 10) / 2 := by
  refine ⟨fun _ _ => rfl, fun _ _ => rfl, fun _ _ _ _ => rfl, fun _ _ _ _ => rfl, ?_, ?_⟩
  · norm_num [rooftop_pv_eroi, rooftop_pv_e, rooftop_pv_e_in, residential_e,
      commercial_e, residential_e_in, commercial_e_in, E_out_solar]
  · norm_num [wind_eroi, wind_onshore_eroi, wind_offshore_eroi]

/-- C9. After the override assignments, the Singapore row carries exactly
the value the join produced for Malaysia, and the Netherlands Antilles and
Gibraltar rows carry exactly 0, whatever the join produced. -/
theorem rooftop_ghi_overrides :
    ∀ joined : String → Option ℚ,
      ghi_after_overrides joined "Singapore" = joined "Malaysia" ∧
      ghi_after_overrides joined "Netherlands Antilles" = some 0 ∧
      ghi_after_overrides joined "Gibraltar" = some 0 := by
  intro joined
  refine ⟨?_, ?_, ?_⟩ <;> simp [ghi_after_overrides, ghiUpdate]

/-- C10. For positive rooftop areas, positive suitability fractions and
positive PV constants, the residential-only quotient, the commercial-only
quotient and the combined rooftop EROI all equal the same
per-unit-effective-area quotient, which depends only on the irradiance and
the PV constants, not on either area. -/
theorem rooftop_eroi_area_independent :
    ∀ (p : RoofParams) (ghi aRes aCom : ℚ),
      0 < aRes → 0 < aCom → 0 < p.sf_residential → 0 < p.sf_commercial →
      0 < p.wc_pv_panel → 0 < p.pv_life_time_inputs → 0 < p.pv_life_time →
      residential_e p ghi aRes / residential_e_in p aRes =
          rooftop_pv_unit_eroi p ghi ∧
        commercial_e p ghi aCom / commercial_e_in p aCom =
          rooftop_pv_unit_eroi p ghi ∧
        rooftop_pv_eroi p ghi aRes aCom = rooftop_pv_unit_eroi p ghi := by
  intro p ghi aRes aCom hres hcom hsfr hsfc hwc hplti hplt
  have hwc0 : p.wc_pv_panel ≠ 0 := ne_of_gt hwc
  have hplti0 : p.pv_life_time_inputs ≠ 0 := ne_of_gt hplti
  have hplt0 : p.pv_life_time ≠ 0 := ne_of_gt hplt
  have hres0 : aRes ≠ 0 := ne_of_gt hres
  have hcom0 : aCom ≠ 0 := ne_of_gt hcom
  have hsfr0 : p.sf_residential ≠ 0 := ne_of_gt hsfr
  have hsfc0 : p.sf_commercial ≠ 0 := ne_of_gt hsfc
  have hsum : 0 < aRes * p.sf_residential + aCom * p.sf_commercial := by positivity
  have hsum0 : aRes * p.sf_residential + aCom * p.sf_commercial ≠ 0 := ne_of_gt hsum
  refine ⟨?_, ?_, ?_⟩
  · unfold residential_e residential_e_in rooftop_pv_unit_eroi E_out_solar
    field_simp
    ring_nf
  · unfold commercial_e commercial_e_in rooftop_pv_unit_eroi E_out_solar
    field_simp
    ring_nf
  · have hden : rooftop_pv_e_in p aRes aCom ≠ 0 := by
      have h1 : rooftop_pv_e_in p aRes aCom =
          p.pv_life_time_inputs / p.pv_life_time * (p.wc_pv_panel / 1000000000) *
            1000000 * 1e-18 * (aRes * p.sf_residential + aCom * p.sf_commercial) := by
        unfold rooftop_pv_e_in residential_e_in commercial_e_in
        ring
      have h2 : 0 < p.pv_life_time_inputs / p.pv_life_time *
          (p.wc_pv_panel / 1000000000) * 1000000 * 1e-18 *
          (aRes * p.sf_residential + aCom * p.sf_commercial) := by positivity
      rw [h1]
      exact ne_of_gt h2
    rw [rooftop_pv_eroi, div_eq_iff hden]
    unfold rooftop_pv_e rooftop_pv_e_in residential_e commercial_e
      residential_e_in commercial_e_in rooftop_pv_unit_eroi E_out_solar
    field_simp
    split_ifs <;> ring

/-- Witness for C10 at concrete constants and areas. -/
theorem rooftop_eroi_area_independent_witness :
    (0 : ℚ) < 1 ∧ (0 : ℚ) < 2 ∧
      rooftop_pv_eroi ⟨1, 1, 1, 1, 1, 1, 0, false⟩ 3 1 2 =
        rooftop_pv_unit_eroi ⟨1, 1, 1, 1, 1, 1, 0, false⟩ 3 :=
  ⟨by norm_num, by norm_num,
    (rooftop_eroi_area_independent ⟨1, 1, 1, 1, 1, 1, 0, false⟩ 3 1 2
      (by norm_num) (by norm_num) (by norm_num) (by norm_num)
      (by norm_num) (by norm_num) (by norm_num)).2.2⟩

/-- C4. The 100 m wind statistics are the arithmetic means of the two
reference heights, the Weibull shape and scale follow the empirical
formulas of lines 81-82, and both are strictly positive whenever the mean
and standard deviation are. At zero mean the embedding is total: the shape
collapses to the degenerate value 0 of totalized division rather than
raising, mirroring the NaN propagation of the floating-point source. -/
theorem weibull_parameters :
    (∀ m71 m125 : ℝ, WindMean100 m71 m125 = (m71 + m125) / 2) ∧
    (∀ s71 s125 : ℝ, WindStd100 s71 s125 = (s71 + s125) / 2) ∧
    (∀ mean std : ℝ, weibull_k mean std = (std / mean) ^ (-1.086 : ℝ)) ∧
    (∀ mean std : ℝ,
      weibull_c mean std = mean / Real.Gamma (1 + 1 / weibull_k mean std)) ∧
    (∀ mean std : ℝ, 0 < mean → 0 < std →
      0 < weibull_k mean std ∧ 0 < weibull_c mean std) ∧
    (∀ std : ℝ, weibull_k 0 std = 0) := by
  refine ⟨fun _ _ => rfl, fun _ _ => rfl, fun _ _ => rfl, fun _ _ => rfl, ?_, ?_⟩
  · intro mean std hmean hstd
    have hk : 0 < weibull_k mean std :=
      Real.rpow_pos_of_pos (div_pos hstd hmean) _
    refine ⟨hk, ?_⟩
    have harg : 0 < 1 + 1 / weibull_k mean std := by positivity
    exact div_pos hmean (Real.Gamma_pos_of_pos harg)
  · intro std
    unfold weibull_k
    rw [div_zero, Real.zero_rpow (by norm_num)]

/-- Witness for C4 at a concrete mean and standard deviation. -/
theorem weibull_parameters_witness :
    (0 : ℝ) < 8 ∧ (0 : ℝ) < 2 ∧ 0 < weibull_k 8 2 ∧ 0 < weibull_c 8 2 :=
  ⟨by norm_num, by norm_num,
    (weibull_parameters.2.2.2.2.1 8 2 (by norm_num) (by norm_num)).1,
    (weibull_parameters.2.2.2.2.1 8 2 (by norm_num) (by norm_num)).2⟩

/-- C5. The hub height of line 85 equals `max(Elev, 0) + 100`, the air
density is the barometric formula of lines 87-89, it is strictly
decreasing in hub height wherever the barometric base stays positive (the
physically relevant range), and at height 0 it equals
`101325 / (287.05 * 288.15)`. -/
theorem air_density_properties :
    (∀ elev : ℝ, hub_z elev = max elev 0 + 100) ∧
    (∀ z : ℝ, air_density z =
      101325 * (1 - 0.0065 * z / 288.15) ^ (5.255 : ℝ) / (287.05 * 288.15)) ∧
    (∀ z1 z2 : ℝ, 0 ≤ z1 → z1 < z2 → 0 < 1 - 0.0065 * z2 / 288.15 →
      air_density z2 < air_density z1) ∧
    air_density 0 = 101325 / (287.05 * 288.15) := by
  refine ⟨?_, fun _ => rfl, ?_, ?_⟩
  · intro elev
    unfold hub_z
    rcases le_or_lt elev 0 with h | h
    · rw [if_neg (not_lt.mpr h), max_eq_right h]
      ring
    · rw [if_pos h, max_eq_left h.le]
      ring
  · intro z1 z2 hz1 h12 hbase2
    have hb : (1 - 0.0065 * z2 / 288.15 : ℝ) ^ (5.255 : ℝ) <
        (1 - 0.0065 * z1 / 288.15 : ℝ) ^ (5.255 : ℝ) := by
      apply Real.rpow_lt_rpow hbase2.le _ (by norm_num)
      have : (0.0065 : ℝ) * z1 / 288.15 < 0.0065 * z2 / 288.15 := by
        rw [div_lt_div_iff_of_pos_right (by norm_num : (0 : ℝ) < 288.15)]
        linarith
      linarith
    unfold air_density pressure
    have hdm : (0 : ℝ) < 287.05 * 288.15 := by norm_num
    exact (div_lt_div_iff_of_pos_right hdm).mpr (by nlinarith)
  · unfold air_density pressure
    norm_num

/-- Witness for C5: the air density at 100 m is below the density at 0 m. -/
theorem air_density_properties_witness :
    (0 : ℝ) ≤ 0 ∧ (0 : ℝ) < 100 ∧ 0 < 1 - 0.0065 * (100 : ℝ) / 288.15 ∧
      air_density 100 < air_density 0 :=
  ⟨le_refl 0, by norm_num, by norm_num,
    air_density_properties.2.2.1 0 100 (le_refl 0) (by norm_num) (by norm_num)⟩
